import Mathlib

/-!
A shallow embedding of the WebGL filter-pipeline engine
(`WebGLProcessor`, `getShaderForFilter`, `processImageWithPipeline`).

Modelling conventions:
* GL object handles are `Nat` identifiers drawn from a fresh counter.
* All stateful GL operations thread an explicit `GLState` and return
  `Except String α × GLState`, so that the state (ledger, caches, trace)
  survives a thrown error, exactly as the mutable `WebGLProcessor` fields
  survive a JavaScript `throw`.
* Device-dependent behaviour (whether a shader source compiles, whether a
  program links, the pixels a fragment program produces, wall-clock
  readings, PNG encoding) is a parameter `Device` of the model.
* Pixel images are total functions `Nat → Nat → Color` with rational
  channels; machine floating point is not modelled.
* Every allocation and release of a device resource increments a counter
  in the `GLState` ledger, one counter pair per resource class.
-/

namespace Piper

/-- RGBA pixel with rational channels. -/
abbrev Color : Type := ℚ × ℚ × ℚ × ℚ

/-- A device-resident pixel buffer's contents, indexed by (x, y). -/
abbrev Image : Type := Nat → Nat → Color

/-- The all-zero image: `texImage2D(..., null)` leaves a zeroed buffer. -/
def Image.blank : Image := fun _ _ => (0, 0, 0, 0)

/-- A value bound to a GL uniform in a draw call: the sampler texture unit,
the resolution vector, or a numeric filter parameter. -/
inductive UniformVal : Type where
  | tex (id : Nat)
  | vec2 (x y : ℚ)
  | num (q : ℚ)
deriving DecidableEq, Repr

/-- The `Filter` interface: `type` is rendered as `ftype` (`type` is a Lean
keyword); the optional `paramConfig` UI metadata is never read by the
processing path and is omitted. -/
structure Filter : Type where
  id : String
  name : String
  ftype : String
  parameters : List (String × ℚ)
  enabled : Bool
deriving DecidableEq, Repr

/-- The `ProcessingResult` record: `imageDataUrl` and `error` are the two
optional fields of the TypeScript interface. -/
structure ProcessingResult : Type where
  success : Bool
  gpuTime : ℚ
  totalTime : ℚ
  memoryUsage : ℚ
  imageDataUrl : Option String
  error : Option String
deriving DecidableEq, Repr

/-- Device-dependent semantics of the GL context: which creations succeed,
which sources compile and link, the diagnostic logs, the pixels a fragment
program produces on an input image, per-pass and per-run clock readings,
and the `toDataURL` encoder. -/
structure Device : Type where
  contextOk : Bool
  createShaderOk : Bool
  createProgramOk : Bool
  createTextureOk : Bool
  createFramebufferOk : Bool
  compileOk : String → Bool
  linkOk : String → String → Bool
  fbComplete : Bool
  shaderInfoLog : String → String
  programInfoLog : String → String → String
  shade : String → List (String × UniformVal) → Image → Image
  passTime : Nat → ℚ
  runTime : ℚ
  encode : Image → String

/-- One recorded `renderFilter` draw call: input texture, fragment source,
uniform bindings, destination (`none` = the canvas / output surface),
and viewport size. -/
structure RenderCall : Type where
  inputTexture : Nat
  fragmentShader : String
  uniforms : List (String × UniformVal)
  framebuffer : Option Nat
  w : Nat
  h : Nat
deriving DecidableEq, Repr

/-- The mutable state of one `WebGLProcessor` plus the GL device ledger:
caches and tracking arrays as in the class fields, content of each texture,
canvas contents, the trace of draw calls, and alloc/release counters per
resource class (textures, framebuffers, programs, shaders, buffers). -/
structure GLState : Type where
  nextId : Nat
  programs : List (String × Nat)
  framebuffers : List Nat
  textures : List Nat
  positionBuffer : Option Nat
  indexBuffer : Option Nat
  fbTex : List (Nat × Nat)
  content : Nat → Image
  canvas : Image
  renders : List RenderCall
  allocTex : Nat
  freeTex : Nat
  allocFb : Nat
  freeFb : Nat
  allocProg : Nat
  freeProg : Nat
  allocShader : Nat
  freeShader : Nat
  allocBuf : Nat
  freeBuf : Nat

/-- The state of a fresh GL context: nothing allocated, blank canvas. -/
def GLState.empty : GLState where
  nextId := 0
  programs := []
  framebuffers := []
  textures := []
  positionBuffer := none
  indexBuffer := none
  fbTex := []
  content := fun _ => Image.blank
  canvas := Image.blank
  renders := []
  allocTex := 0
  freeTex := 0
  allocFb := 0
  freeFb := 0
  allocProg := 0
  freeProg := 0
  allocShader := 0
  freeShader := 0
  allocBuf := 0
  freeBuf := 0

/-- `basicVertexShader`: the fixed shared vertex stage. -/
def basicVertexShader : String :=
"
attribute vec2 a_position;
varying vec2 v_texCoord;

void main() \x7b
  v_texCoord = vec2(a_position.x * 0.5 + 0.5, a_position.y * 0.5 + 0.5);
  gl_Position = vec4(a_position, 0, 1);
\x7d
"

/-- `shaders.passthrough`. -/
def shaders.passthrough : String :=
"
    precision mediump float;
    uniform sampler2D u_image;
    varying vec2 v_texCoord;
    void main() \x7b
      gl_FragColor = texture2D(u_image, v_texCoord);
    \x7d
  "

/-- `shaders.debug`. -/
def shaders.debug : String :=
"
    precision mediump float;
    uniform sampler2D u_image;
    varying vec2 v_texCoord;
    void main() \x7b
      vec3 color = texture2D(u_image, v_texCoord).rgb;
      color.r = min(color.r + 0.5, 1.0);
      gl_FragColor = vec4(color, 1.0);
    \x7d
  "

/-- `shaders.brightness`. -/
def shaders.brightness : String :=
"
    precision mediump float;
    uniform sampler2D u_image;
    uniform float u_value;
    varying vec2 v_texCoord;
    void main() \x7b
      vec3 color = texture2D(u_image, v_texCoord).rgb;
      color += u_value * 0.01;
      gl_FragColor = vec4(clamp(color, 0.0, 1.0), 1.0);
    \x7d
  "

/-- `shaders.contrast`. -/
def shaders.contrast : String :=
"
    precision mediump float;
    uniform sampler2D u_image;
    uniform float u_value;
    varying vec2 v_texCoord;
    void main() \x7b
      vec3 color = texture2D(u_image, v_texCoord).rgb;
      color = (color - 0.5) * u_value + 0.5;
      gl_FragColor = vec4(clamp(color, 0.0, 1.0), 1.0);
    \x7d
  "

/-- `shaders.saturation`. -/
def shaders.saturation : String :=
"
    precision mediump float;
    uniform sampler2D u_image;
    uniform float u_value;
    varying vec2 v_texCoord;
    void main() \x7b
      vec3 color = texture2D(u_image, v_texCoord).rgb;
      float gray = dot(color, vec3(0.299, 0.587, 0.114));
      vec3 saturated = mix(vec3(gray), color, u_value);
      gl_FragColor = vec4(clamp(saturated, 0.0, 1.0), 1.0);
    \x7d
  "

/-- `shaders.blur`. -/
def shaders.blur : String :=
"
    precision mediump float;
    uniform sampler2D u_image;
    uniform float u_radius;
    uniform vec2 u_resolution;
    varying vec2 v_texCoord;
    void main() \x7b
      vec2 texelSize = 1.0 / u_resolution;
      vec3 color = vec3(0.0);
      float totalWeight = 0.0;
      for (int x = -2; x <= 2; x++) \x7b
        for (int y = -2; y <= 2; y++) \x7b
          vec2 offset = vec2(float(x), float(y)) * texelSize * u_radius;
          color += texture2D(u_image, v_texCoord + offset).rgb;
          totalWeight += 1.0;
        \x7d
      \x7d
      gl_FragColor = vec4(color / totalWeight, 1.0);
    \x7d
  "

/-- `shaders.sharpen`. -/
def shaders.sharpen : String :=
"
    precision mediump float;
    uniform sampler2D u_image;
    uniform float u_strength;
    uniform vec2 u_resolution;
    varying vec2 v_texCoord;
    void main() \x7b
      vec2 texelSize = 1.0 / u_resolution;
      vec3 center = texture2D(u_image, v_texCoord).rgb;
      vec3 blur = (
        texture2D(u_image, v_texCoord + vec2(-texelSize.x, 0.0)).rgb +
        texture2D(u_image, v_texCoord + vec2(texelSize.x, 0.0)).rgb +
        texture2D(u_image, v_texCoord + vec2(0.0, -texelSize.y)).rgb +
        texture2D(u_image, v_texCoord + vec2(0.0, texelSize.y)).rgb
      ) * 0.25;
      vec3 sharpened = center + (center - blur) * u_strength;
      gl_FragColor = vec4(clamp(sharpened, 0.0, 1.0), 1.0);
    \x7d
  "

/-- `shaders.edge`. -/
def shaders.edge : String :=
"
    precision mediump float;
    uniform sampler2D u_image;
    uniform float u_threshold;
    uniform vec2 u_resolution;
    varying vec2 v_texCoord;
    void main() \x7b
      vec2 texelSize = 1.0 / u_resolution;
      vec3 tl = texture2D(u_image, v_texCoord + vec2(-texelSize.x, -texelSize.y)).rgb;
      vec3 tm = texture2D(u_image, v_texCoord + vec2(0.0, -texelSize.y)).rgb;
      vec3 tr = texture2D(u_image, v_texCoord + vec2(texelSize.x, -texelSize.y)).rgb;
      vec3 ml = texture2D(u_image, v_texCoord + vec2(-texelSize.x, 0.0)).rgb;
      vec3 mr = texture2D(u_image, v_texCoord + vec2(texelSize.x, 0.0)).rgb;
      vec3 bl = texture2D(u_image, v_texCoord + vec2(-texelSize.x, texelSize.y)).rgb;
      vec3 bm = texture2D(u_image, v_texCoord + vec2(0.0, texelSize.y)).rgb;
      vec3 br = texture2D(u_image, v_texCoord + vec2(texelSize.x, texelSize.y)).rgb;
      vec3 gx = -tl + tr - 2.0*ml + 2.0*mr - bl + br;
      vec3 gy = -tl - 2.0*tm - tr + bl + 2.0*bm + br;
      float magnitude = length(gx) + length(gy);
      float edge = step(u_threshold, magnitude);
      gl_FragColor = vec4(vec3(edge), 1.0);
    \x7d
  "

/-- `shaders.noise`. -/
def shaders.noise : String :=
"
    precision mediump float;
    uniform sampler2D u_image;
    uniform float u_strength;
    uniform vec2 u_resolution;
    varying vec2 v_texCoord;
    void main() \x7b
      vec2 texelSize = 1.0 / u_resolution;
      vec3 center = texture2D(u_image, v_texCoord).rgb;
      vec3 sum = vec3(0.0);
      sum += texture2D(u_image, v_texCoord + vec2(-texelSize.x, -texelSize.y)).rgb;
      sum += texture2D(u_image, v_texCoord + vec2(0.0, -texelSize.y)).rgb;
      sum += texture2D(u_image, v_texCoord + vec2(texelSize.x, -texelSize.y)).rgb;
      sum += texture2D(u_image, v_texCoord + vec2(-texelSize.x, 0.0)).rgb;
      sum += texture2D(u_image, v_texCoord).rgb;
      sum += texture2D(u_image, v_texCoord + vec2(texelSize.x, 0.0)).rgb;
      sum += texture2D(u_image, v_texCoord + vec2(-texelSize.x, texelSize.y)).rgb;
      sum += texture2D(u_image, v_texCoord + vec2(0.0, texelSize.y)).rgb;
      sum += texture2D(u_image, v_texCoord + vec2(texelSize.x, texelSize.y)).rgb;
      vec3 filtered = sum / 9.0;
      vec3 result = mix(center, filtered, u_strength);
      gl_FragColor = vec4(result, 1.0);
    \x7d
  "

/-- `shaders.bilateral`. -/
def shaders.bilateral : String :=
"
    precision mediump float;
    uniform sampler2D u_image;
    uniform float u_spatial;
    uniform float u_color;
    uniform vec2 u_resolution;
    varying vec2 v_texCoord;
    void main() \x7b
      vec2 texelSize = 1.0 / u_resolution;
      vec3 centerColor = texture2D(u_image, v_texCoord).rgb;
      vec3 sum = vec3(0.0);
      float totalWeight = 0.0;
      for (int x = -2; x <= 2; x++) \x7b
        for (int y = -2; y <= 2; y++) \x7b
          vec2 offset = vec2(float(x), float(y)) * texelSize;
          vec3 sampleColor = texture2D(u_image, v_texCoord + offset).rgb;
          float spatialDist = length(vec2(float(x), float(y)));
          float colorDist = length(sampleColor - centerColor);
          float spatialWeight = exp(-spatialDist * spatialDist / (2.0 * u_spatial * u_spatial));
          float colorWeight = exp(-colorDist * colorDist / (2.0 * u_color * u_color));
          float weight = spatialWeight * colorWeight;
          sum += sampleColor * weight;
          totalWeight += weight;
        \x7d
      \x7d
      if (totalWeight > 0.0) \x7b
        gl_FragColor = vec4(sum / totalWeight, 1.0);
      \x7d else \x7b
        gl_FragColor = vec4(centerColor, 1.0);
      \x7d
    \x7d
  "

/-- The `shaders` object as an association list in declaration order:
filter kind to fragment source. -/
def shaderTable : List (String × String) :=
  [ ("passthrough", shaders.passthrough)
  , ("debug", shaders.debug)
  , ("brightness", shaders.brightness)
  , ("contrast", shaders.contrast)
  , ("saturation", shaders.saturation)
  , ("blur", shaders.blur)
  , ("sharpen", shaders.sharpen)
  , ("edge", shaders.edge)
  , ("noise", shaders.noise)
  , ("bilateral", shaders.bilateral) ]

/-- `filterId.split('-')[0]`: JavaScript `split` on `'-'` yields as first
element the prefix of the string before the first `'-'` (the whole string
when no `'-'` occurs), so the first element is the longest dash-free
prefix. -/
def splitHead (filterId : String) : String :=
  String.mk (filterId.data.takeWhile (fun c => c != '-'))

/-- `getShaderForFilter`: strip the instance suffix, look the base kind up
in the `shaders` object, fall back to `shaders.passthrough` on a miss. -/
def getShaderForFilter (filterId : String) : String :=
  (shaderTable.lookup (splitHead filterId)).getD shaders.passthrough

/-- `WebGLProcessor.compileShader`: create the shader object, compile,
and on a failed compile read the info log, delete the shader and throw. -/
def compileShader (dev : Device) (source : String) (st : GLState) :
    Except String Nat × GLState :=
  if !dev.createShaderOk then (Except.error "Failed to create shader", st)
  else
    let id := st.nextId
    let st1 : GLState :=
      { st with nextId := id + 1, allocShader := st.allocShader + 1 }
    if dev.compileOk source then (Except.ok id, st1)
    else
      (Except.error ("Shader compilation error: " ++ dev.shaderInfoLog source),
       { st1 with freeShader := st1.freeShader + 1 })

/-- `WebGLProcessor.createProgram`: compile both stages, create and link
the program; a failed link reads the log, deletes the program and throws
(the two shaders are deleted only after a successful link). -/
def createProgram (dev : Device) (vertexSource fragmentSource : String)
    (st : GLState) : Except String Nat × GLState :=
  match compileShader dev vertexSource st with
  | (Except.error e, st') => (Except.error e, st')
  | (Except.ok _vs, st1) =>
    match compileShader dev fragmentSource st1 with
    | (Except.error e, st') => (Except.error e, st')
    | (Except.ok _fs, st2) =>
      if !dev.createProgramOk then (Except.error "Failed to create program", st2)
      else
        let pid := st2.nextId
        let st3 : GLState :=
          { st2 with nextId := pid + 1, allocProg := st2.allocProg + 1 }
        if dev.linkOk vertexSource fragmentSource then
          (Except.ok pid, { st3 with freeShader := st3.freeShader + 2 })
        else
          (Except.error ("Program linking error: " ++
             dev.programInfoLog vertexSource fragmentSource),
           { st3 with freeProg := st3.freeProg + 1 })

/-- `WebGLProcessor.getProgram`: the program cache keyed by fragment
source; compile-and-link on a miss, store, and return the cached entry. -/
def getProgram (dev : Device) (fragmentShader : String) (st : GLState) :
    Except String Nat × GLState :=
  match st.programs.lookup fragmentShader with
  | some p => (Except.ok p, st)
  | none =>
    match createProgram dev basicVertexShader fragmentShader st with
    | (Except.error e, st') => (Except.error e, st')
    | (Except.ok p, st') =>
      (Except.ok p, { st' with programs := (fragmentShader, p) :: st'.programs })

/-- `WebGLProcessor.createTexture`: upload the source image into a fresh
texture and push it onto the tracking array. -/
def createTexture (dev : Device) (image : Image) (st : GLState) :
    Except String Nat × GLState :=
  if !dev.createTextureOk then (Except.error "Failed to create texture", st)
  else
    let id := st.nextId
    (Except.ok id,
     { st with
         nextId := id + 1
         allocTex := st.allocTex + 1
         textures := st.textures ++ [id]
         content := fun t => if t = id then image else st.content t })

/-- `WebGLProcessor.createFramebuffer`: allocate a blank texture and a
framebuffer with that texture attached; a completeness failure throws
after both allocations, before either is pushed onto a tracking array.
Returns `(framebuffer id, texture id)`. -/
def createFramebuffer (dev : Device) (width height : Nat) (st : GLState) :
    Except String (Nat × Nat) × GLState :=
  if !dev.createTextureOk then
    (Except.error "Failed to create framebuffer texture", st)
  else
    let tid := st.nextId
    let st1 : GLState :=
      { st with
          nextId := tid + 1
          allocTex := st.allocTex + 1
          content := fun t => if t = tid then Image.blank else st.content t }
    if !dev.createFramebufferOk then
      (Except.error "Failed to create framebuffer", st1)
    else
      let fid := st1.nextId
      let st2 : GLState :=
        { st1 with
            nextId := fid + 1
            allocFb := st1.allocFb + 1
            fbTex := (fid, tid) :: st1.fbTex }
      if !dev.fbComplete then (Except.error "Framebuffer not complete", st2)
      else
        (Except.ok (fid, tid),
         { st2 with
             framebuffers := st2.framebuffers ++ [fid]
             textures := st2.textures ++ [tid] })

/-- `WebGLProcessor.renderFilter`: fetch the program from the cache, bind
the input texture and uniforms, draw the full-screen quad into
`framebuffer` (`none` = the canvas), and return the elapsed wall-clock
time for the pass.  The pixels produced are `dev.shade` applied to the
input texture's contents; a draw into an off-screen target overwrites its
attached texture, a draw into `none` overwrites the canvas. -/
def renderFilter (dev : Device) (inputTexture : Nat) (fragmentShader : String)
    (uniforms : List (String × UniformVal)) (framebuffer : Option Nat)
    (width height : Nat) (st : GLState) : Except String ℚ × GLState :=
  match getProgram dev fragmentShader st with
  | (Except.error e, st') => (Except.error e, st')
  | (Except.ok _p, st1) =>
    let call : RenderCall :=
      { inputTexture := inputTexture
        fragmentShader := fragmentShader
        uniforms := uniforms
        framebuffer := framebuffer
        w := width
        h := height }
    let out : Image := dev.shade fragmentShader uniforms (st1.content inputTexture)
    let st2 : GLState :=
      { st1 with
          renders := st1.renders ++ [call]
          canvas := match framebuffer with
                    | none => out
                    | some _ => st1.canvas
          content := match framebuffer with
                     | none => st1.content
                     | some f => fun t =>
                         if st1.fbTex.lookup f = some t then out
                         else st1.content t }
    (Except.ok (dev.passTime st1.renders.length), st2)

/-- `WebGLProcessor.clear`: clear the canvas to opaque black. -/
def clear (st : GLState) : GLState :=
  { st with canvas := fun _ _ => (0, 0, 0, 1) }

/-- `WebGLProcessor.getMemoryUsage`:
`(width * height * 4 * numTextures) / (1024 * 1024)` MiB. -/
def getMemoryUsage (width height numTextures : Nat) : ℚ :=
  ((width : ℚ) * height * 4 * numTextures) / (1024 * 1024)

/-- `WebGLProcessor.destroy`: delete every cached program, every tracked
framebuffer and texture, and the two geometry buffers. -/
def destroy (st : GLState) : GLState :=
  { st with
      programs := []
      freeProg := st.freeProg + st.programs.length
      framebuffers := []
      freeFb := st.freeFb + st.framebuffers.length
      textures := []
      freeTex := st.freeTex + st.textures.length
      freeBuf := st.freeBuf +
        (if st.positionBuffer.isSome then 1 else 0) +
        (if st.indexBuffer.isSome then 1 else 0) }

/-- The `WebGLProcessor` constructor: obtain the context (throw
`WebGL not supported` when unavailable) and run `setupGeometry`, which
allocates the position and index buffers. -/
def newProcessor (dev : Device) : Except String Unit × GLState :=
  if !dev.contextOk then (Except.error "WebGL not supported", GLState.empty)
  else
    (Except.ok (),
     { GLState.empty with
         nextId := 2
         positionBuffer := some 0
         indexBuffer := some 1
         allocBuf := 2 })

/-- The uniform record built for one pipeline pass: `u_image` bound to the
current texture, `u_resolution` to the viewport, and `u_` prefixed entries
for each filter parameter. -/
def passUniforms (currentTexture : Nat) (width height : Nat) (f : Filter) :
    List (String × UniformVal) :=
  [("u_image", UniformVal.tex currentTexture),
   ("u_resolution", UniformVal.vec2 (width : ℚ) (height : ℚ))] ++
  f.parameters.map (fun kv => ("u_" ++ kv.1, UniformVal.num kv.2))

/-- The `enabledFilters.forEach` loop of `processImageWithPipeline`:
render each pass, targeting the canvas on the last pass and the current
off-screen target otherwise; after a non-final pass the input becomes the
current target's texture and the target pair `(cur, next)` is swapped.
`cur` and `next` are `(framebuffer id, texture id)` pairs; `acc` is the
accumulated GPU time. -/
def runPasses (dev : Device) (filters : List Filter) (currentTexture : Nat)
    (cur next : Nat × Nat) (width height : Nat) (acc : ℚ) (st : GLState) :
    Except String ℚ × GLState :=
  match filters with
  | [] => (Except.ok acc, st)
  | f :: rest =>
    match renderFilter dev currentTexture (getShaderForFilter f.id)
        (passUniforms currentTexture width height f)
        (if rest.isEmpty then none else some cur.1) width height st with
    | (Except.error e, st') => (Except.error e, st')
    | (Except.ok t, st1) =>
      match rest with
      | [] => (Except.ok (acc + t), st1)
      | _ :: _ => runPasses dev rest cur.2 next cur width height (acc + t) st1

/-- The tail of the `try` block after all passes have rendered: read the
clock, the memory estimate and the canvas data URL, destroy the
processor, and resolve the success record. -/
def finishRun (dev : Device) (width height enabledCount : Nat)
    (totalGpuTime : ℚ) (st4 : GLState) :
    Except String ProcessingResult × GLState :=
  (Except.ok
    { success := true
      gpuTime := totalGpuTime
      totalTime := dev.runTime
      memoryUsage := getMemoryUsage width height (enabledCount + 2)
      imageDataUrl := some (dev.encode st4.canvas)
      error := none },
   destroy st4)

/-- The `try` block of `processImageWithPipeline`, entered once the image
has loaded: construct the processor, upload the input texture, allocate
the two ping-pong targets, run the passthrough pass or the filter loop,
and finish with the success record.  Any thrown error propagates with
the state at the moment of the throw. -/
def tryRun (dev : Device) (img : Image) (pipeline : List Filter)
    (width height : Nat) : Except String ProcessingResult × GLState :=
  match newProcessor dev with
  | (Except.error e, st') => (Except.error e, st')
  | (Except.ok _, st0) =>
    match createTexture dev img st0 with
    | (Except.error e, st') => (Except.error e, st')
    | (Except.ok inputTexture, st1) =>
      match createFramebuffer dev width height st1 with
      | (Except.error e, st') => (Except.error e, st')
      | (Except.ok fbo1, st2) =>
        match createFramebuffer dev width height st2 with
        | (Except.error e, st') => (Except.error e, st')
        | (Except.ok fbo2, st3) =>
          if (pipeline.filter (fun f => f.enabled)).isEmpty then
            match renderFilter dev inputTexture shaders.passthrough
                [("u_image", UniformVal.tex inputTexture)] none
                width height (clear st3) with
            | (Except.error e, st') => (Except.error e, st')
            | (Except.ok totalGpuTime, st4) =>
              finishRun dev width height
                (pipeline.filter (fun f => f.enabled)).length totalGpuTime st4
          else
            match runPasses dev (pipeline.filter (fun f => f.enabled))
                inputTexture fbo1 fbo2 width height 0 (clear st3) with
            | (Except.error e, st') => (Except.error e, st')
            | (Except.ok totalGpuTime, st4) =>
              finishRun dev width height
                (pipeline.filter (fun f => f.enabled)).length totalGpuTime st4

/-- `processImageWithPipeline`, with the final `GLState` exposed alongside
the resolved `ProcessingResult`.  `imageLoad = none` models the
`img.onerror` path; `some img` models `img.onload` with decoded pixels
`img`.  The `catch` branch resolves `success=false` with the error
message and zeroed telemetry (and, as in the source, performs no
cleanup). -/
def processImageWithPipelineSt (dev : Device) (imageLoad : Option Image)
    (pipeline : List Filter) (width height : Nat) :
    ProcessingResult × GLState :=
  match imageLoad with
  | none =>
    ({ success := false
       gpuTime := 0
       totalTime := 0
       memoryUsage := 0
       imageDataUrl := none
       error := some "Failed to load image" }, GLState.empty)
  | some img =>
    match tryRun dev img pipeline width height with
    | (Except.ok result, st') => (result, st')
    | (Except.error e, st') =>
      ({ success := false
         gpuTime := 0
         totalTime := 0
         memoryUsage := 0
         imageDataUrl := none
         error := some e }, st')

/-- The resolved `ProcessingResult` of one run. -/
def processImageWithPipeline (dev : Device) (imageLoad : Option Image)
    (pipeline : List Filter) (width height : Nat) : ProcessingResult :=
  (processImageWithPipelineSt dev imageLoad pipeline width height).1

/-- Closed form of the draw-call trace produced by `runPasses`: one call
per filter, the last targeting the canvas, every other call targeting the
current ping-pong framebuffer, the input texture advancing to the current
target's texture and the pair swapping between passes. -/
def mkTrace : List Filter → Nat → Nat × Nat → Nat × Nat → Nat → Nat →
    List RenderCall
  | [], _, _, _, _, _ => []
  | f :: rest, t, cur, next, w, h =>
    { inputTexture := t
      fragmentShader := getShaderForFilter f.id
      uniforms := passUniforms t w h f
      framebuffer := if rest.isEmpty then none else some cur.1
      w := w
      h := h } :: mkTrace rest cur.2 next cur w h

/-- A device on which context acquisition, object creation, shader
compilation, program linking and framebuffer completion all succeed. -/
def goodDev (dev : Device) : Prop :=
  dev.contextOk = true ∧ dev.createShaderOk = true ∧
  dev.createProgramOk = true ∧ dev.createTextureOk = true ∧
  dev.createFramebufferOk = true ∧ (∀ s, dev.compileOk s = true) ∧
  (∀ v f, dev.linkOk v f = true) ∧ dev.fbComplete = true

/-- `st'` agrees with `st` on the texture, framebuffer and buffer
ledger counters. -/
def countersEq (st st' : GLState) : Prop :=
  st'.allocTex = st.allocTex ∧ st'.allocFb = st.allocFb ∧
  st'.allocBuf = st.allocBuf ∧ st'.freeTex = st.freeTex ∧
  st'.freeFb = st.freeFb ∧ st'.freeBuf = st.freeBuf

/-- A concrete device on which everything succeeds, the passthrough
program (like every program) renders identically, and clocks tick one
unit per pass. -/
def devW : Device where
  contextOk := true
  createShaderOk := true
  createProgramOk := true
  createTextureOk := true
  createFramebufferOk := true
  compileOk := fun _ => true
  linkOk := fun _ _ => true
  fbComplete := true
  shaderInfoLog := fun _ => "shader log"
  programInfoLog := fun _ _ => "program log"
  shade := fun _ _ image => image
  passTime := fun _ => 1
  runTime := 5
  encode := fun _ => "data-url"

/-- A concrete device that rejects every shader source at compilation. -/
def devAllFail : Device :=
  { devW with compileOk := fun _ => false }

/-- A concrete device on which only the vertex stage compiles, so every
fragment stage fails at compilation. -/
def devFragFail : Device :=
  { devW with compileOk := fun s => s == basicVertexShader }

/-- A concrete device on which both stages compile but linking fails. -/
def devLinkFail : Device :=
  { devW with linkOk := fun _ _ => false }

/-- A concrete solid-colour source image. -/
def imgW : Image := fun _ _ => (1, 0, 0, 1)

/-- A concrete enabled brightness filter instance. -/
def fBright : Filter :=
  { id := "brightness-1700000000000"
    name := "Brightness"
    ftype := "brightness"
    parameters := [("value", 10)]
    enabled := true }

/-- A concrete enabled blur filter instance. -/
def fBlur : Filter :=
  { id := "blur-1700000000001"
    name := "Blur"
    ftype := "blur"
    parameters := [("radius", 2)]
    enabled := true }

/-- A concrete disabled contrast filter instance. -/
def fContrastOff : Filter :=
  { id := "contrast-1700000000002"
    name := "Contrast"
    ftype := "contrast"
    parameters := [("value", 1)]
    enabled := false }

/-- The state after the allocation phase of a run on a device whose
context, texture and framebuffer creations all succeed: geometry buffers
`0` and `1`, input texture `2` holding the source image, ping-pong
target A with texture `3` and framebuffer `4`, target B with texture `5`
and framebuffer `6`. -/
def allocState (img : Image) : GLState where
  nextId := 7
  programs := []
  framebuffers := [4, 6]
  textures := [2, 3, 5]
  positionBuffer := some 0
  indexBuffer := some 1
  fbTex := [(6, 5), (4, 3)]
  content := fun t =>
    if t = 5 then Image.blank
    else if t = 3 then Image.blank
    else if t = 2 then img
    else Image.blank
  canvas := Image.blank
  renders := []
  allocTex := 3
  freeTex := 0
  allocFb := 2
  freeFb := 0
  allocProg := 0
  freeProg := 0
  allocShader := 0
  freeShader := 0
  allocBuf := 2
  freeBuf := 0

/-! ## Lemmas about filter-kind resolution -/

/-- Taking the dash-free prefix of `l₁ ++ '-' :: l₂` recovers `l₁` when
`l₁` itself contains no dash. -/
theorem takeWhile_no_dash (l₁ l₂ : List Char) (h : ∀ c ∈ l₁, c ≠ '-') :
    (l₁ ++ '-' :: l₂).takeWhile (fun c => c != '-') = l₁ := by
  induction l₁ with
  | nil => simp [List.takeWhile]
  | cons a t ih =>
    have ha : a ≠ '-' := h a (by simp)
    have ht : ∀ c ∈ t, c ≠ '-' := fun c hc => h c (by simp [hc])
    have hb : (a != '-') = true := by simp [bne_iff_ne, ha]
    simp only [List.cons_append, List.takeWhile]
    simp [hb, ih ht]

/-- `splitHead` applied to a dash-free base followed by a dashed suffix
recovers the base. -/
theorem splitHead_append (base suf : String) (h : ∀ c ∈ base.data, c ≠ '-') :
    splitHead (base ++ "-" ++ suf) = base := by
  unfold splitHead
  have hdata : (base ++ "-" ++ suf).data = base.data ++ '-' :: suf.data := by
    simp [String.data_append]
  rw [hdata, takeWhile_no_dash base.data suf.data h]

/-- C5: shader resolution first strips the instance-disambiguating suffix
(the text from the first `'-'` onward) and looks the base kind up in the
registry; an identifier whose base kind is not registered resolves to the
passthrough shader, which is itself a registered entry, so resolution
always yields a program source. -/
theorem c5_shader_resolution :
    (∀ base suf : String, (∀ c ∈ base.data, c ≠ '-') →
       getShaderForFilter (base ++ "-" ++ suf) =
         (shaderTable.lookup base).getD shaders.passthrough) ∧
    (∀ filterId : String, shaderTable.lookup (splitHead filterId) = none →
       getShaderForFilter filterId = shaders.passthrough) ∧
    shaderTable.lookup "passthrough" = some shaders.passthrough := by
  refine ⟨?_, ?_, ?_⟩
  · intro base suf h
    unfold getShaderForFilter
    rw [splitHead_append base suf h]
  · intro filterId h
    unfold getShaderForFilter
    rw [h]
    rfl
  · rfl

/-- Witness for C5: `brightness-1700000000000` resolves to the brightness
entry, an unregistered kind resolves to passthrough. -/
theorem c5_witness :
    getShaderForFilter ("brightness" ++ "-" ++ "1700000000000") =
      shaders.brightness ∧
    getShaderForFilter "vignette-3" = shaders.passthrough := by
  constructor
  · rw [c5_shader_resolution.1 "brightness" "1700000000000" (by decide)]
    rfl
  · exact c5_shader_resolution.2.1 "vignette-3" (by decide)

/-! ## The program cache -/

/-- C6: on a cache miss `getProgram` compiles, links and stores the new
program (one program allocation); on a hit it returns the cached program
with the state untouched (no recompilation); a compile failure raises an
error carrying the shader info log and a link failure one carrying the
program info log, and in both failure cases the cache is unchanged — no
partially-linked program is retained. -/
theorem c6_program_cache (dev : Device) (st : GLState) (src : String) :
    (∀ p, st.programs.lookup src = some p →
       getProgram dev src st = (Except.ok p, st)) ∧
    (st.programs.lookup src = none →
     dev.createShaderOk = true →
     dev.compileOk basicVertexShader = true →
     dev.compileOk src = true →
     dev.createProgramOk = true →
     dev.linkOk basicVertexShader src = true →
       ∃ p st', getProgram dev src st = (Except.ok p, st') ∧
         st'.programs = (src, p) :: st.programs ∧
         st'.allocProg = st.allocProg + 1) ∧
    (st.programs.lookup src = none →
     dev.createShaderOk = true →
     dev.compileOk basicVertexShader = true →
     dev.compileOk src = false →
       (getProgram dev src st).1 =
         Except.error ("Shader compilation error: " ++ dev.shaderInfoLog src) ∧
       ((getProgram dev src st).2).programs = st.programs) ∧
    (st.programs.lookup src = none →
     dev.createShaderOk = true →
     dev.compileOk basicVertexShader = true →
     dev.compileOk src = true →
     dev.createProgramOk = true →
     dev.linkOk basicVertexShader src = false →
       (getProgram dev src st).1 =
         Except.error ("Program linking error: " ++
           dev.programInfoLog basicVertexShader src) ∧
       ((getProgram dev src st).2).programs = st.programs) := by
  refine ⟨?_, ?_, ?_, ?_⟩
  · intro p hp
    simp [getProgram, hp]
  · intro hmiss hcs hcv hcf hcp hlink
    refine ⟨st.nextId + 2,
      { st with
          nextId := st.nextId + 3
          allocShader := st.allocShader + 2
          freeShader := st.freeShader + 2
          allocProg := st.allocProg + 1
          programs := (src, st.nextId + 2) :: st.programs }, ?_, rfl, rfl⟩
    simp [getProgram, hmiss, createProgram, compileShader, hcs, hcv, hcf,
      hcp, hlink]
  · intro hmiss hcs hcv hcf
    simp [getProgram, hmiss, createProgram, compileShader, hcs, hcv, hcf]
  · intro hmiss hcs hcv hcf hcp hlink
    simp [getProgram, hmiss, createProgram, compileShader, hcs, hcv, hcf, hcp,
      hlink]

/-- Witness for C6: on the all-good device a fresh cache gains exactly the
requested entry; on the link-failure device the diagnostic is surfaced
and the cache stays empty. -/
theorem c6_witness :
    (∃ p st', getProgram devW shaders.passthrough GLState.empty =
        (Except.ok p, st') ∧
      st'.programs = (shaders.passthrough, p) :: GLState.empty.programs ∧
      st'.allocProg = GLState.empty.allocProg + 1) ∧
    (getProgram devLinkFail shaders.passthrough GLState.empty).1 =
      Except.error ("Program linking error: " ++ "program log") ∧
    ((getProgram devLinkFail shaders.passthrough GLState.empty).2).programs =
      [] := by
  refine ⟨?_, ?_⟩
  · exact (c6_program_cache devW GLState.empty shaders.passthrough).2.1
      rfl rfl rfl rfl rfl rfl
  · exact (c6_program_cache devLinkFail GLState.empty shaders.passthrough).2.2.2
      rfl rfl rfl rfl rfl rfl

/-! ## Shape of the resolved result -/

/-- Every successfully resolved `tryRun` result was built at the single
success site: `success = true`, an encoded image present, no error, and
the memory estimate computed from the enabled-filter count. -/
theorem tryRun_ok_fields (dev : Device) (img : Image) (pipeline : List Filter)
    (w h : Nat) (r : ProcessingResult) (st' : GLState)
    (heq : tryRun dev img pipeline w h = (Except.ok r, st')) :
    r.success = true ∧ (∃ s, r.imageDataUrl = some s) ∧ r.error = none ∧
    r.memoryUsage =
      getMemoryUsage w h ((pipeline.filter (fun f => f.enabled)).length + 2) := by
  unfold tryRun at heq
  split at heq
  · exact absurd (congrArg Prod.fst heq) (by simp)
  split at heq
  · exact absurd (congrArg Prod.fst heq) (by simp)
  split at heq
  · exact absurd (congrArg Prod.fst heq) (by simp)
  split at heq
  · exact absurd (congrArg Prod.fst heq) (by simp)
  by_cases hE : (pipeline.filter (fun f => f.enabled)).isEmpty = true
  · rw [if_pos hE] at heq
    split at heq
    · exact absurd (congrArg Prod.fst heq) (by simp)
    · unfold finishRun at heq
      injection heq with hfst _
      injection hfst with hrec
      subst hrec
      exact ⟨rfl, ⟨_, rfl⟩, rfl, rfl⟩
  · rw [if_neg hE] at heq
    split at heq
    · exact absurd (congrArg Prod.fst heq) (by simp)
    · unfold finishRun at heq
      injection heq with hfst _
      injection hfst with hrec
      subst hrec
      exact ⟨rfl, ⟨_, rfl⟩, rfl, rfl⟩

/-- C7: the encoded image is present iff the run succeeded and the error
message is present iff it failed — success is all-or-nothing. -/
theorem c7_success_all_or_nothing (dev : Device) (imageLoad : Option Image)
    (pipeline : List Filter) (w h : Nat) :
    ((processImageWithPipeline dev imageLoad pipeline w h).imageDataUrl.isSome ↔
      (processImageWithPipeline dev imageLoad pipeline w h).success = true) ∧
    ((processImageWithPipeline dev imageLoad pipeline w h).error.isSome ↔
      (processImageWithPipeline dev imageLoad pipeline w h).success = false) := by
  unfold processImageWithPipeline processImageWithPipelineSt
  match imageLoad with
  | none => simp
  | some img =>
    match htr : tryRun dev img pipeline w h with
    | (Except.ok r, st') =>
      obtain ⟨h1, ⟨s, h2⟩, h3, _⟩ := tryRun_ok_fields dev img pipeline w h r st' htr
      simp [htr, h1, h2, h3]
    | (Except.error e, st') => simp [htr]

/-- C10: a run that resolves with `success = false` — the exception path
or the image-load-failure path — reports `gpuTime`, `totalTime` and
`memoryUsage` all exactly `0`. -/
theorem c10_zero_telemetry_on_failure (dev : Device) (imageLoad : Option Image)
    (pipeline : List Filter) (w h : Nat)
    (hfail : (processImageWithPipeline dev imageLoad pipeline w h).success = false) :
    (processImageWithPipeline dev imageLoad pipeline w h).gpuTime = 0 ∧
    (processImageWithPipeline dev imageLoad pipeline w h).totalTime = 0 ∧
    (processImageWithPipeline dev imageLoad pipeline w h).memoryUsage = 0 := by
  unfold processImageWithPipeline processImageWithPipelineSt at hfail ⊢
  match imageLoad with
  | none => simp
  | some img =>
    match htr : tryRun dev img pipeline w h with
    | (Except.ok r, st') =>
      obtain ⟨h1, _, _, _⟩ := tryRun_ok_fields dev img pipeline w h r st' htr
      simp [htr, h1] at hfail
    | (Except.error e, st') => simp [htr]

/-- Witness for C10: on a device that rejects every shader the run fails
and all three telemetry fields are zero. -/
theorem c10_witness :
    (processImageWithPipeline devAllFail (some imgW) [fBright] 8 8).success
      = false ∧
    (processImageWithPipeline devAllFail (some imgW) [fBright] 8 8).gpuTime
      = 0 ∧
    (processImageWithPipeline devAllFail (some imgW) [fBright] 8 8).totalTime
      = 0 ∧
    (processImageWithPipeline devAllFail (some imgW) [fBright] 8 8).memoryUsage
      = 0 := by
  have h := c10_zero_telemetry_on_failure devAllFail (some imgW) [fBright] 8 8
    (by decide)
  exact ⟨by decide, h⟩

/-- C8: a successful run reports
`memoryUsage = width * height * 4 * (N + 2) / (1024 * 1024)` MiB, where
`N` is the number of enabled filters — linear in `width * height` and in
`N + 2`. -/
theorem c8_memory_estimate (dev : Device) (imageLoad : Option Image)
    (pipeline : List Filter) (w h : Nat)
    (hs : (processImageWithPipeline dev imageLoad pipeline w h).success = true) :
    (processImageWithPipeline dev imageLoad pipeline w h).memoryUsage =
      ((w : ℚ) * h * 4 *
        (((pipeline.filter (fun f => f.enabled)).length : ℚ) + 2)) /
        (1024 * 1024) := by
  unfold processImageWithPipeline processImageWithPipelineSt at hs ⊢
  match imageLoad with
  | none => simp at hs
  | some img =>
    match htr : tryRun dev img pipeline w h with
    | (Except.ok r, st') =>
      obtain ⟨_, _, _, h4⟩ := tryRun_ok_fields dev img pipeline w h r st' htr
      simp only [htr]
      rw [h4]
      unfold getMemoryUsage
      push_cast
      ring
    | (Except.error e, st') => simp [htr] at hs

/-- Witness for C8: the all-good run on an 8 by 8 image with one enabled
filter reports 8 * 8 * 4 * 3 / 1048576 MiB. -/
theorem c8_witness :
    (processImageWithPipeline devW (some imgW) [fBright] 8 8).memoryUsage =
      ((8 : ℚ) * 8 * 4 * (((1 : Nat) : ℚ) + 2)) / (1024 * 1024) := by
  have h := c8_memory_estimate devW (some imgW) [fBright] 8 8 (by decide)
  simpa using h

/-! ## The failure-path resource leak -/

/-- C1 evaluated at the failing input: with an image loaded and a device
that rejects shader compilation, the run resolves `success = false`
after allocating three textures, two framebuffers and two geometry
buffers, and releases none of them — the `catch` branch resolves without
calling `destroy`, so the allocation ledger is left unbalanced. -/
theorem c1_compile_failure_leaks_resources :
    (processImageWithPipelineSt devAllFail (some imgW) [] 8 8).1.success
      = false ∧
    (processImageWithPipelineSt devAllFail (some imgW) [] 8 8).2.allocTex = 3 ∧
    (processImageWithPipelineSt devAllFail (some imgW) [] 8 8).2.freeTex = 0 ∧
    (processImageWithPipelineSt devAllFail (some imgW) [] 8 8).2.allocFb = 2 ∧
    (processImageWithPipelineSt devAllFail (some imgW) [] 8 8).2.freeFb = 0 ∧
    (processImageWithPipelineSt devAllFail (some imgW) [] 8 8).2.allocBuf = 2 ∧
    (processImageWithPipelineSt devAllFail (some imgW) [] 8 8).2.freeBuf = 0 := by
  decide

/-! ## Ledger preservation through the rendering phase -/

theorem countersEq_refl (st : GLState) : countersEq st st :=
  ⟨rfl, rfl, rfl, rfl, rfl, rfl⟩

theorem countersEq_trans {a b c : GLState} (h1 : countersEq a b)
    (h2 : countersEq b c) : countersEq a c := by
  obtain ⟨x1, x2, x3, x4, x5, x6⟩ := h1
  obtain ⟨y1, y2, y3, y4, y5, y6⟩ := h2
  exact ⟨y1.trans x1, y2.trans x2, y3.trans x3, y4.trans x4, y5.trans x5,
    y6.trans x6⟩

/-- Compiling a shader touches only the shader counters. -/
theorem compileShader_counters (dev : Device) (src : String) (st : GLState) :
    countersEq st ((compileShader dev src st).2) := by
  unfold compileShader countersEq
  repeat' split
  all_goals simp

/-- Creating a program touches only the shader and program counters. -/
theorem createProgram_counters (dev : Device) (v f : String) (st : GLState) :
    countersEq st ((createProgram dev v f st).2) := by
  unfold createProgram
  have c1 := compileShader_counters dev v st
  rcases h1 : compileShader dev v st with ⟨r1, stA⟩
  rw [h1] at c1
  cases r1 with
  | error e => exact c1
  | ok vs =>
    dsimp only
    have c2 := compileShader_counters dev f stA
    rcases h2 : compileShader dev f stA with ⟨r2, stB⟩
    rw [h2] at c2
    have c12 := countersEq_trans c1 c2
    cases r2 with
    | error e => exact c12
    | ok fs =>
      dsimp only
      obtain ⟨x1, x2, x3, x4, x5, x6⟩ := c12
      split
      · exact ⟨x1, x2, x3, x4, x5, x6⟩
      · split
        · exact ⟨x1, x2, x3, x4, x5, x6⟩
        · exact ⟨x1, x2, x3, x4, x5, x6⟩

/-- The program cache touches only the shader and program counters. -/
theorem getProgram_counters (dev : Device) (src : String) (st : GLState) :
    countersEq st ((getProgram dev src st).2) := by
  unfold getProgram
  split
  · exact countersEq_refl st
  · have c := createProgram_counters dev basicVertexShader src st
    rcases h : createProgram dev basicVertexShader src st with ⟨r, stA⟩
    rw [h] at c
    cases r with
    | error e => exact c
    | ok p => exact c

/-- A draw call allocates and releases nothing. -/
theorem renderFilter_counters (dev : Device) (tex : Nat) (src : String)
    (u : List (String × UniformVal)) (fb : Option Nat) (w h : Nat)
    (st : GLState) :
    countersEq st ((renderFilter dev tex src u fb w h st).2) := by
  unfold renderFilter
  have c := getProgram_counters dev src st
  rcases h1 : getProgram dev src st with ⟨r, stA⟩
  rw [h1] at c
  cases r with
  | error e => exact c
  | ok p => exact c

/-- The whole filter loop allocates and releases nothing. -/
theorem runPasses_counters (dev : Device) (fs : List Filter) :
    ∀ (t : Nat) (cur next : Nat × Nat) (w h : Nat) (acc : ℚ) (st : GLState),
      countersEq st ((runPasses dev fs t cur next w h acc st).2) := by
  induction fs with
  | nil => intro t cur next w h acc st; exact countersEq_refl st
  | cons f rest ih =>
    intro t cur next w h acc st
    unfold runPasses
    have c := renderFilter_counters dev t (getShaderForFilter f.id)
      (passUniforms t w h f) (if rest.isEmpty then none else some cur.1)
      w h st
    rcases h1 : renderFilter dev t (getShaderForFilter f.id)
        (passUniforms t w h f) (if rest.isEmpty then none else some cur.1)
        w h st with ⟨r, stA⟩
    rw [h1] at c
    cases r with
    | error e => exact c
    | ok q =>
      cases rest with
      | nil => exact c
      | cons g rs => exact countersEq_trans c (ih cur.2 next cur w h (acc + q) _)

/-- `clear` leaves the ledger untouched. -/
theorem clear_counters (st : GLState) : countersEq st (clear st) :=
  ⟨rfl, rfl, rfl, rfl, rfl, rfl⟩

/-- `destroy` leaves the three allocation counters untouched. -/
theorem destroy_alloc (st : GLState) :
    (destroy st).allocTex = st.allocTex ∧ (destroy st).allocFb = st.allocFb ∧
    (destroy st).allocBuf = st.allocBuf :=
  ⟨rfl, rfl, rfl⟩

/-! ## Reduction of the allocation phase -/

/-- On a device whose context and resource creations succeed, the
allocation phase of `tryRun` reaches `allocState img` and the run
continues with the passthrough pass or the filter loop from there,
with input texture `2` and ping-pong pairs `(4, 3)` and `(6, 5)`. -/
theorem tryRun_eq_branches (dev : Device) (img : Image)
    (pipeline : List Filter) (w h : Nat)
    (hctx : dev.contextOk = true) (htex : dev.createTextureOk = true)
    (hfb : dev.createFramebufferOk = true) (hcomp : dev.fbComplete = true) :
    tryRun dev img pipeline w h =
      if (pipeline.filter (fun f => f.enabled)).isEmpty then
        match renderFilter dev 2 shaders.passthrough
            [("u_image", UniformVal.tex 2)] none w h
            (clear (allocState img)) with
        | (Except.error e, st') => (Except.error e, st')
        | (Except.ok t, st4) =>
          finishRun dev w h (pipeline.filter (fun f => f.enabled)).length t st4
      else
        match runPasses dev (pipeline.filter (fun f => f.enabled)) 2 (4, 3)
            (6, 5) w h 0 (clear (allocState img)) with
        | (Except.error e, st') => (Except.error e, st')
        | (Except.ok t, st4) =>
          finishRun dev w h (pipeline.filter (fun f => f.enabled)).length t st4 := by
  unfold tryRun newProcessor createTexture createFramebuffer
  rw [hctx, htex, hfb, hcomp]
  rfl

/-- The second component of a resolved run is the state `tryRun` ends in,
on both the success and the exception path. -/
theorem processSt_snd (dev : Device) (img : Image) (pipeline : List Filter)
    (w h : Nat) :
    (processImageWithPipelineSt dev (some img) pipeline w h).2 =
      (tryRun dev img pipeline w h).2 := by
  unfold processImageWithPipelineSt
  rcases htr : tryRun dev img pipeline w h with ⟨r, st⟩
  cases r <;> simp [htr]

/-- C2: once the image has loaded on a device whose context and resource
creations succeed, a run allocates exactly 2 off-screen render targets
(framebuffers) and 3 textures (the input plus the two attachments),
whatever the pipeline — in particular independent of the number of
enabled filters, and whether or not the rendering phase then fails. -/
theorem c2_exactly_two_render_targets (dev : Device) (img : Image)
    (pipeline : List Filter) (w h : Nat)
    (hctx : dev.contextOk = true) (htex : dev.createTextureOk = true)
    (hfb : dev.createFramebufferOk = true) (hcomp : dev.fbComplete = true) :
    (processImageWithPipelineSt dev (some img) pipeline w h).2.allocFb = 2 ∧
    (processImageWithPipelineSt dev (some img) pipeline w h).2.allocTex = 3 := by
  rw [processSt_snd, tryRun_eq_branches dev img pipeline w h hctx htex hfb hcomp]
  by_cases hE : (pipeline.filter (fun f => f.enabled)).isEmpty = true
  · rw [if_pos hE]
    have c := renderFilter_counters dev 2 shaders.passthrough
      [("u_image", UniformVal.tex 2)] none w h (clear (allocState img))
    rcases hr : renderFilter dev 2 shaders.passthrough
        [("u_image", UniformVal.tex 2)] none w h
        (clear (allocState img)) with ⟨r, stB⟩
    rw [hr] at c
    cases r with
    | error e => exact ⟨c.2.1, c.1⟩
    | ok q => exact ⟨c.2.1, c.1⟩
  · rw [if_neg hE]
    have c := runPasses_counters dev (pipeline.filter (fun f => f.enabled))
      2 (4, 3) (6, 5) w h 0 (clear (allocState img))
    rcases hr : runPasses dev (pipeline.filter (fun f => f.enabled)) 2 (4, 3)
        (6, 5) w h 0 (clear (allocState img)) with ⟨r, stB⟩
    rw [hr] at c
    cases r with
    | error e => exact ⟨c.2.1, c.1⟩
    | ok q => exact ⟨c.2.1, c.1⟩

/-- Witness for C2: the all-good device run with one enabled and one
disabled filter allocates exactly 2 framebuffers and 3 textures. -/
theorem c2_witness :
    (processImageWithPipelineSt devW (some imgW) [fBright, fContrastOff]
      8 8).2.allocFb = 2 ∧
    (processImageWithPipelineSt devW (some imgW) [fBright, fContrastOff]
      8 8).2.allocTex = 3 :=
  c2_exactly_two_render_targets devW imgW [fBright, fContrastOff] 8 8
    rfl rfl rfl rfl

/-! ## The rendering phase on a good device -/

/-- On a good device `getProgram` always succeeds and touches only the
program cache, the id counter and the shader/program ledger counters. -/
theorem getProgram_good (dev : Device) (hg : goodDev dev) (src : String)
    (st : GLState) :
    ∃ p n' P' a' s' f', getProgram dev src st =
      (Except.ok p,
       { st with nextId := n', programs := P', allocProg := a',
                 allocShader := s', freeShader := f' }) := by
  obtain ⟨h1, h2, h3, h4, h5, h6, h7, h8⟩ := hg
  unfold getProgram
  cases hl : st.programs.lookup src with
  | some p =>
    exact ⟨p, st.nextId, st.programs, st.allocProg, st.allocShader,
      st.freeShader, rfl⟩
  | none =>
    refine ⟨st.nextId + 2, st.nextId + 3, (src, st.nextId + 2) :: st.programs,
      st.allocProg + 1, st.allocShader + 2, st.freeShader + 2, ?_⟩
    simp [createProgram, compileShader, h2, h3, h6, h7]

/-- On a good device a draw call succeeds, appends exactly its own record
to the trace, and touches neither the ledger counters, the tracking
arrays, nor `fbTex`; it rewrites the canvas (for an on-screen draw) or
the target's attached texture (for an off-screen draw) with the shaded
output. -/
theorem renderFilter_good (dev : Device) (hg : goodDev dev) (tex : Nat)
    (src : String) (u : List (String × UniformVal)) (fb : Option Nat)
    (w h : Nat) (st : GLState) :
    ∃ q n' P' a' s' f', renderFilter dev tex src u fb w h st =
      (Except.ok q,
       { st with nextId := n', programs := P', allocProg := a',
                 allocShader := s', freeShader := f',
                 renders := st.renders ++
                   [{ inputTexture := tex, fragmentShader := src,
                      uniforms := u, framebuffer := fb, w := w, h := h }],
                 canvas := match fb with
                           | none => dev.shade src u (st.content tex)
                           | some _ => st.canvas,
                 content := match fb with
                            | none => st.content
                            | some f => fun t =>
                                if st.fbTex.lookup f = some t then
                                  dev.shade src u (st.content tex)
                                else st.content t }) := by
  obtain ⟨p, n', P', a', s', f', hgp⟩ := getProgram_good dev hg src st
  unfold renderFilter
  rw [hgp]
  exact ⟨_, n', P', a', s', f', rfl⟩

/-- On a good device the filter loop succeeds and appends exactly the
closed-form trace `mkTrace`, leaving `fbTex` unchanged. -/
theorem runPasses_good (dev : Device) (hg : goodDev dev) :
    ∀ (fs : List Filter) (t : Nat) (cur next : Nat × Nat) (w h : Nat)
      (acc : ℚ) (st : GLState),
      ∃ q st', runPasses dev fs t cur next w h acc st = (Except.ok q, st') ∧
        st'.renders = st.renders ++ mkTrace fs t cur next w h ∧
        st'.fbTex = st.fbTex := by
  intro fs
  induction fs with
  | nil =>
    intro t cur next w h acc st
    exact ⟨acc, st, rfl, by simp [mkTrace], rfl⟩
  | cons f rest ih =>
    intro t cur next w h acc st
    obtain ⟨q1, n', P', a', s', f', hrf⟩ := renderFilter_good dev hg t
      (getShaderForFilter f.id) (passUniforms t w h f)
      (if rest.isEmpty then none else some cur.1) w h st
    unfold runPasses
    rw [hrf]
    cases rest with
    | nil =>
      refine ⟨acc + q1, _, rfl, ?_, rfl⟩
      simp [mkTrace]
    | cons g rs =>
      obtain ⟨q2, st2, hrp, hre2, hfb2⟩ := ih cur.2 next cur w h (acc + q1) _
      refine ⟨q2, st2, hrp, ?_, hfb2⟩
      rw [hre2]
      simp [mkTrace, List.append_assoc]

/-! ## Properties of the closed-form trace -/

theorem mkTrace_length : ∀ (fs : List Filter) (t : Nat) (c n : Nat × Nat)
    (w h : Nat), (mkTrace fs t c n w h).length = fs.length := by
  intro fs
  induction fs with
  | nil => intro t c n w h; rfl
  | cons f rest ih =>
    intro t c n w h
    simp [mkTrace, ih]

theorem mkTrace_shaders : ∀ (fs : List Filter) (t : Nat) (c n : Nat × Nat)
    (w h : Nat),
    (mkTrace fs t c n w h).map (fun call => call.fragmentShader) =
      fs.map (fun f => getShaderForFilter f.id) := by
  intro fs
  induction fs with
  | nil => intro t c n w h; rfl
  | cons f rest ih =>
    intro t c n w h
    simp [mkTrace, ih]

/-- One unfolding step of `mkTrace`. -/
theorem mkTrace_cons (f : Filter) (rest : List Filter) (t : Nat)
    (c n : Nat × Nat) (w h : Nat) :
    mkTrace (f :: rest) t c n w h =
      { inputTexture := t
        fragmentShader := getShaderForFilter f.id
        uniforms := passUniforms t w h f
        framebuffer := if rest.isEmpty then none else some c.1
        w := w
        h := h } :: mkTrace rest c.2 n c w h := rfl

/-- A pass draws to the output surface exactly when it is the last one. -/
theorem mkTrace_fb_none_iff : ∀ (fs : List Filter) (t : Nat) (c n : Nat × Nat)
    (w h : Nat) (i : Nat) (call : RenderCall),
    (mkTrace fs t c n w h).get? i = some call →
    (call.framebuffer = none ↔ i = fs.length - 1) := by
  intro fs
  induction fs with
  | nil => intro t c n w h i call hcall; simp [mkTrace] at hcall
  | cons f rest ih =>
    intro t c n w h i call hcall
    rw [mkTrace_cons] at hcall
    cases i with
    | zero =>
      rw [List.get?_cons_zero] at hcall
      injection hcall with hcall
      subst hcall
      cases rest with
      | nil => simp
      | cons g rs => simp
    | succ j =>
      rw [List.get?_cons_succ] at hcall
      cases rest with
      | nil => simp [mkTrace] at hcall
      | cons g rs =>
        have := ih c.2 n c w h j call hcall
        rw [this]
        simp only [List.length_cons]
        omega

/-- Every non-final pass draws into an off-screen target whose attached
texture (under any lookup function validating the two ping-pong pairs)
is the input texture of the next pass. -/
theorem mkTrace_chain : ∀ (fs : List Filter) (t : Nat) (c n : Nat × Nat)
    (w h : Nat) (L : Nat → Option Nat), L c.1 = some c.2 → L n.1 = some n.2 →
    ∀ (i : Nat) (call call' : RenderCall),
      (mkTrace fs t c n w h).get? i = some call →
      (mkTrace fs t c n w h).get? (i + 1) = some call' →
      ∃ fbid, call.framebuffer = some fbid ∧
        L fbid = some call'.inputTexture := by
  intro fs
  induction fs with
  | nil => intro t c n w h L hc hn i call call' h1 h2; simp [mkTrace] at h1
  | cons f rest ih =>
    intro t c n w h L hc hn i call call' h1 h2
    rw [mkTrace_cons] at h1 h2
    cases rest with
    | nil =>
      rw [List.get?_cons_succ] at h2
      simp [mkTrace] at h2
    | cons g rs =>
      cases i with
      | zero =>
        rw [List.get?_cons_zero] at h1
        injection h1 with h1
        subst h1
        rw [List.get?_cons_succ, mkTrace_cons, List.get?_cons_zero] at h2
        injection h2 with h2
        subst h2
        exact ⟨c.1, by simp, hc⟩
      | succ j =>
        rw [List.get?_cons_succ] at h1 h2
        exact ih c.2 n c w h L hn hc j call call' h1 h2

/-- Consecutive passes never target the same destination: the pair is
swapped after every non-final pass. -/
theorem mkTrace_alternate : ∀ (fs : List Filter) (t : Nat) (c n : Nat × Nat)
    (w h : Nat), c.1 ≠ n.1 →
    ∀ (i : Nat) (call call' : RenderCall),
      (mkTrace fs t c n w h).get? i = some call →
      (mkTrace fs t c n w h).get? (i + 1) = some call' →
      call.framebuffer ≠ call'.framebuffer := by
  intro fs
  induction fs with
  | nil => intro t c n w h hne i call call' h1 h2; simp [mkTrace] at h1
  | cons f rest ih =>
    intro t c n w h hne i call call' h1 h2
    rw [mkTrace_cons] at h1 h2
    cases rest with
    | nil =>
      rw [List.get?_cons_succ] at h2
      simp [mkTrace] at h2
    | cons g rs =>
      cases i with
      | zero =>
        rw [List.get?_cons_zero] at h1
        injection h1 with h1
        subst h1
        rw [List.get?_cons_succ, mkTrace_cons, List.get?_cons_zero] at h2
        injection h2 with h2
        subst h2
        cases rs with
        | nil => simp
        | cons g2 rs2 =>
          simp
          exact fun heq => hne heq
      | succ j =>
        rw [List.get?_cons_succ] at h1 h2
        exact ih c.2 n c w h hne.symm j call call' h1 h2

/-! ## Runs on a good device -/

/-- A resolved run whose `tryRun` succeeded resolves with exactly that
result and state. -/
theorem processSt_of_ok (dev : Device) (img : Image) (pipeline : List Filter)
    (w h : Nat) (r : ProcessingResult) (st' : GLState)
    (heq : tryRun dev img pipeline w h = (Except.ok r, st')) :
    processImageWithPipelineSt dev (some img) pipeline w h = (r, st') := by
  unfold processImageWithPipelineSt
  dsimp only
  rw [heq]

/-- On a good device, a run with at least one enabled filter leaves as
trace exactly `mkTrace` over the enabled filters, started on the input
texture `2` and the pairs `(4, 3)`, `(6, 5)`, with `fbTex` recording the
two attachments. -/
theorem run_good_renders (dev : Device) (img : Image) (pipeline : List Filter)
    (w h : Nat) (hg : goodDev dev)
    (hne : (pipeline.filter (fun f => f.enabled)).isEmpty = false) :
    (processImageWithPipelineSt dev (some img) pipeline w h).2.renders =
      mkTrace (pipeline.filter (fun f => f.enabled)) 2 (4, 3) (6, 5) w h ∧
    (processImageWithPipelineSt dev (some img) pipeline w h).2.fbTex =
      [(6, 5), (4, 3)] := by
  obtain ⟨h1, h2, h3, h4, h5, h6, h7, h8⟩ := hg
  rw [processSt_snd, tryRun_eq_branches dev img pipeline w h h1 h4 h5 h8]
  rw [if_neg (by simp [hne])]
  obtain ⟨q, st', hrp, hre, hfb⟩ := runPasses_good dev
    ⟨h1, h2, h3, h4, h5, h6, h7, h8⟩ (pipeline.filter (fun f => f.enabled))
    2 (4, 3) (6, 5) w h 0 (clear (allocState img))
  rw [hrp]
  constructor
  · exact hre.trans (List.nil_append _)
  · exact hfb.trans rfl

/-- C3: in a run with `N ≥ 1` enabled filters on a good device, there are
exactly `N` passes; a pass draws to the output surface iff it is the
last; every non-final pass draws into an off-screen target whose attached
texture is the next pass's input (strict sequential dependency); and
consecutive passes never reuse a destination (the pair is swapped). -/
theorem c3_pass_routing (dev : Device) (img : Image) (pipeline : List Filter)
    (w h : Nat) (hg : goodDev dev)
    (hN : 1 ≤ (pipeline.filter (fun f => f.enabled)).length) :
    (processImageWithPipelineSt dev (some img) pipeline w h).2.renders.length =
      (pipeline.filter (fun f => f.enabled)).length ∧
    (∀ (i : Nat) (call : RenderCall),
      (processImageWithPipelineSt dev (some img) pipeline
          w h).2.renders.get? i = some call →
      (call.framebuffer = none ↔
        i = (pipeline.filter (fun f => f.enabled)).length - 1)) ∧
    (∀ (i : Nat) (call call' : RenderCall),
      (processImageWithPipelineSt dev (some img) pipeline
          w h).2.renders.get? i = some call →
      (processImageWithPipelineSt dev (some img) pipeline
          w h).2.renders.get? (i + 1) = some call' →
      ∃ fbid, call.framebuffer = some fbid ∧
        (processImageWithPipelineSt dev (some img) pipeline
            w h).2.fbTex.lookup fbid = some call'.inputTexture) ∧
    (∀ (i : Nat) (call call' : RenderCall),
      (processImageWithPipelineSt dev (some img) pipeline
          w h).2.renders.get? i = some call →
      (processImageWithPipelineSt dev (some img) pipeline
          w h).2.renders.get? (i + 1) = some call' →
      call.framebuffer ≠ call'.framebuffer) := by
  have hne : (pipeline.filter (fun f => f.enabled)).isEmpty = false := by
    cases hl : pipeline.filter (fun f => f.enabled) with
    | nil => rw [hl] at hN; simp at hN
    | cons a l => rfl
  obtain ⟨hrend, hfbt⟩ := run_good_renders dev img pipeline w h hg hne
  refine ⟨?_, ?_, ?_, ?_⟩
  · rw [hrend, mkTrace_length]
  · intro i call hcall
    rw [hrend] at hcall
    exact mkTrace_fb_none_iff _ _ _ _ _ _ _ _ hcall
  · intro i call call' hc1 hc2
    rw [hrend] at hc1 hc2
    rw [hfbt]
    exact mkTrace_chain _ 2 (4, 3) (6, 5) w h
      (fun fbid => [(6, 5), (4, 3)].lookup fbid) rfl rfl i call call' hc1 hc2
  · intro i call call' hc1 hc2
    rw [hrend] at hc1 hc2
    exact mkTrace_alternate _ 2 (4, 3) (6, 5) w h (by decide) i call call'
      hc1 hc2

/-- `devW` is a good device. -/
theorem devW_good : goodDev devW :=
  ⟨rfl, rfl, rfl, rfl, rfl, fun _ => rfl, fun _ _ => rfl, rfl⟩

/-- Witness for C3: the two-filter run on the all-good device renders two
passes, the first into an off-screen target feeding the second, the
second to the output surface. -/
theorem c3_witness :
    (processImageWithPipelineSt devW (some imgW) [fBright, fBlur]
      8 8).2.renders.length = 2 := by
  have h := c3_pass_routing devW imgW [fBright, fBlur] 8 8 devW_good
    (by decide)
  rw [h.1]
  rfl

/-- C4: the rendered passes are exactly the enabled filters' shaders in
original pipeline order, and a pipeline whose filters are all disabled
resolves to exactly the same result and state as the empty pipeline. -/
theorem c4_enabled_subset_in_order (dev : Device) (img : Image)
    (pipeline : List Filter) (w h : Nat) (hg : goodDev dev) :
    ((pipeline.filter (fun f => f.enabled)).isEmpty = false →
      (processImageWithPipelineSt dev (some img) pipeline w h).2.renders.map
          (fun call => call.fragmentShader) =
        (pipeline.filter (fun f => f.enabled)).map
          (fun f => getShaderForFilter f.id)) ∧
    ((∀ f ∈ pipeline, f.enabled = false) →
      processImageWithPipelineSt dev (some img) pipeline w h =
        processImageWithPipelineSt dev (some img) [] w h) := by
  constructor
  · intro hne
    obtain ⟨hrend, _⟩ := run_good_renders dev img pipeline w h hg hne
    rw [hrend, mkTrace_shaders]
  · intro hdis
    have hfil : pipeline.filter (fun f => f.enabled) = [] := by
      rw [List.filter_eq_nil_iff]
      intro a ha
      simp [hdis a ha]
    have htr : tryRun dev img pipeline w h = tryRun dev img [] w h := by
      unfold tryRun
      rw [hfil]
      simp only [List.filter_nil]
    unfold processImageWithPipelineSt
    dsimp only
    rw [htr]

/-- Witness for C4: with one disabled filter between two enabled ones the
trace is exactly brightness then blur; the all-disabled run equals the
empty run. -/
theorem c4_witness :
    (processImageWithPipelineSt devW (some imgW)
        [fBright, fContrastOff, fBlur] 8 8).2.renders.map
      (fun call => call.fragmentShader) =
      [shaders.brightness, shaders.blur] ∧
    processImageWithPipelineSt devW (some imgW) [fContrastOff] 8 8 =
      processImageWithPipelineSt devW (some imgW) [] 8 8 := by
  constructor
  · have h := (c4_enabled_subset_in_order devW imgW
      [fBright, fContrastOff, fBlur] 8 8 devW_good).1 (by decide)
    rw [h]
    rfl
  · exact (c4_enabled_subset_in_order devW imgW [fContrastOff] 8 8
      devW_good).2 (by decide)

/-- On a good device, a run whose enabled set is empty performs exactly
one pass: the passthrough program, fed the input texture, drawn to the
output surface; the final state's canvas holds the passthrough shading of
the source image. -/
theorem tryRun_empty_good (dev : Device) (img : Image)
    (pipeline : List Filter) (w h : Nat) (hg : goodDev dev)
    (hemp : pipeline.filter (fun f => f.enabled) = []) :
    ∃ q st4, tryRun dev img pipeline w h = finishRun dev w h 0 q st4 ∧
      st4.renders = [{ inputTexture := 2
                       fragmentShader := shaders.passthrough
                       uniforms := [("u_image", UniformVal.tex 2)]
                       framebuffer := none
                       w := w
                       h := h }] ∧
      st4.content 2 = img ∧
      st4.canvas =
        dev.shade shaders.passthrough [("u_image", UniformVal.tex 2)] img := by
  obtain ⟨h1, h2, h3, h4, h5, h6, h7, h8⟩ := hg
  obtain ⟨q, n', P', a', s', f', hrf⟩ := renderFilter_good dev
    ⟨h1, h2, h3, h4, h5, h6, h7, h8⟩ 2 shaders.passthrough
    [("u_image", UniformVal.tex 2)] none w h (clear (allocState img))
  refine ⟨q, (renderFilter dev 2 shaders.passthrough
    [("u_image", UniformVal.tex 2)] none w h (clear (allocState img))).2,
    ?_, ?_, ?_, ?_⟩
  · rw [tryRun_eq_branches dev img pipeline w h h1 h4 h5 h8, hemp]
    rw [hrf]
    rfl
  · rw [hrf]
    rfl
  · rw [hrf]
    rfl
  · rw [hrf]
    rfl

/-- C9: with every filter disabled (or none supplied), a good-device run
on which the passthrough program is the identity succeeds, renders the
input texture through the passthrough program directly to the output
surface, leaves the source image bit-identical on the canvas, and encodes
exactly that image. -/
theorem c9_empty_pipeline_identity (dev : Device) (img : Image)
    (pipeline : List Filter) (w h : Nat) (hg : goodDev dev)
    (hpass : ∀ u im, dev.shade shaders.passthrough u im = im)
    (hemp : pipeline.filter (fun f => f.enabled) = []) :
    (processImageWithPipelineSt dev (some img) pipeline w h).1.success
      = true ∧
    (∃ t, (processImageWithPipelineSt dev (some img) pipeline
        w h).2.renders =
        [{ inputTexture := t
           fragmentShader := shaders.passthrough
           uniforms := [("u_image", UniformVal.tex t)]
           framebuffer := none
           w := w
           h := h }] ∧
      (processImageWithPipelineSt dev (some img) pipeline w h).2.content t
        = img) ∧
    (processImageWithPipelineSt dev (some img) pipeline w h).2.canvas
      = img ∧
    (processImageWithPipelineSt dev (some img) pipeline w h).1.imageDataUrl
      = some (dev.encode img) := by
  obtain ⟨q, st4, htr, hrend, hcont, hcanv⟩ :=
    tryRun_empty_good dev img pipeline w h hg hemp
  have hps := processSt_of_ok dev img pipeline w h _ _ htr
  refine ⟨?_, ⟨2, ?_, ?_⟩, ?_, ?_⟩
  · rw [hps]
  · rw [hps]
    exact hrend
  · rw [hps]
    exact hcont
  · rw [hps]
    show st4.canvas = img
    rw [hcanv, hpass]
  · rw [hps]
    show some (dev.encode st4.canvas) = some (dev.encode img)
    rw [hcanv, hpass]

/-- Witness for C9: the empty pipeline on the all-good device (whose
`shade` is pointwise faithful to each program, in particular the
passthrough identity) succeeds with the source image on the canvas. -/
theorem c9_witness :
    (processImageWithPipelineSt devW (some imgW) [] 8 8).1.success = true ∧
    (processImageWithPipelineSt devW (some imgW) [] 8 8).2.canvas = imgW := by
  have h := c9_empty_pipeline_identity devW imgW [] 8 8 devW_good
    (fun _ _ => rfl) rfl
  exact ⟨h.1, h.2.2.1⟩

end Piper
